import Mathlib

/-!
Verification of the ftpserver2 session core against its specification.

The definitions below are shallow embeddings of the Go sources:
* `splitSlash`, `joinSlash`, `collapse`, `splitAndClearPath`, `clearPath`
  embed `splitAndClearPath` / `clearPath` from `ftp/session/session.go`;
* `PAService` embeds the port assigner from `ftp/portassigner`;
* `DataChannel` embeds `ftp/datachannel`;
* `SessionState` / `handleTokens` embed the command dispatch of
  `ftp/session/session.go`, the check pipeline of `ftp/session/cmdlist.go`
  and the handlers of `ftp/session/commands.go`.

Go strings are modelled as Lean `String` (with `String.data : List Char`
playing the role of the byte slice; all paths involved are ASCII).
External effects (sockets, the OS bind probe, the file-system backend,
the authenticator) are modelled as explicit oracle parameters.
-/

namespace FTP2

/-! ## Path normalizer (ftp/session/session.go, clearPath / splitAndClearPath) -/

/-- The `".."` path segment, as a character list. -/
def ddot : List Char := ['.', '.']

/-- Prepends a character to the first segment of a segment list. -/
def consHead (c : Char) : List (List Char) → List (List Char)
  | [] => [[c]]
  | t :: ts => (c :: t) :: ts

/-- Model of Go `strings.Split(s, "/")` on the character list of `s`:
splits into the (possibly empty) segments between `'/'` characters.
`strings.Split("", "/")` is `[""]`, matching `splitSlash [] = [[]]`. -/
def splitSlash : List Char → List (List Char)
  | [] => [[]]
  | c :: cs =>
    if c = '/' then [] :: splitSlash cs
    else consHead c (splitSlash cs)

/-- Model of Go `strings.Join(l, "/")`. -/
def joinSlash : List (List Char) → List Char
  | [] => []
  | [x] => x
  | x :: y :: ys => x ++ '/' :: joinSlash (y :: ys)

/-- The pair-collapsing loop of `splitAndClearPath` (session.go lines 329-341).
The Go loop walks `i` over `toks`; when `toks[i+1] == ".."` it skips both
`toks[i]` and the `".."` (`i++` plus the loop increment), otherwise it keeps
`toks[i]`; finally the last token is kept unless it is `".."`.  The recursion
below performs exactly those steps: on `x :: y :: rest` with `y = ".."` both
are dropped and scanning resumes at `rest`; with `y ≠ ".."` the head is kept;
a final lone `".."` is dropped. -/
def collapse : List (List Char) → List (List Char)
  | [] => []
  | [x] => if x = ddot then [] else [x]
  | x :: y :: rest =>
    if y = ddot then collapse rest
    else x :: collapse (y :: rest)

/-- `splitAndClearPath` from session.go: split on `/`, drop empty segments,
collapse `<segment, "..">` pairs. -/
def splitAndClearPath (s : String) : List String :=
  (collapse ((splitSlash s.data).filter (· ≠ []))).map String.mk

/-- Core of `clearPath` on character lists.  Mirrors session.go lines 305-319:
`".."` is returned unchanged; otherwise the collapsed segments are joined
with `/`; a leading `/` of the input is preserved (`s[0] == '/'`); an empty
result becomes `"/"`.  Go's `s[0]` panics on the empty string, modelled by
`none`. -/
def clearPathCore (d : List Char) : Option (List Char) :=
  if d = ddot then some d
  else
    let p := joinSlash (collapse ((splitSlash d).filter (· ≠ [])))
    match d with
    | [] => none
    | c :: _ =>
      if c = '/' then some ('/' :: p)
      else if p = [] then some ['/']
      else some p

/-- `clearPath` from session.go; `none` models the panic on the empty string. -/
def clearPath (s : String) : Option String :=
  (clearPathCore s.data).map String.mk

/-- Total wrapper used by the command handlers.  `clearPath` is `none` only
for the empty string; the session always passes a non-empty path (tokens come
from `strings.Fields`, hence are non-empty, and are joined with spaces), so
the fallback is dead code. -/
def clearPathD (s : String) : String :=
  (clearPath s).getD s

/-! ## Port assigner (ftp/portassigner/portassigner.go, paService) -/

/-- State of `paService`.  `free` is a Go `int` counter, so it is an `Int`. -/
structure PAService where
  minPASVPort : Nat
  maxPASVPort : Nat
  cAssigned : List Bool
  free : Int
deriving DecidableEq

/-- `portassigner.New`. -/
def paNew (minPASVPort maxPASVPort : Nat) : PAService :=
  { minPASVPort := minPASVPort
    maxPASVPort := maxPASVPort
    cAssigned := List.replicate (maxPASVPort - minPASVPort) false
    free := (maxPASVPort : Int) - (minPASVPort : Int) }

/-- The scan loop inside `AssignPort`: the first slot that is not in use and
whose probe bind (`net.Listen` on the candidate port, an OS effect modelled by
the oracle `probe`) succeeds is marked in use and its port returned. -/
def assignScan (minPort : Nat) (probe : Nat → Bool) : List Bool → Nat → Option (Nat × List Bool)
  | [], _ => none
  | b :: rest, i =>
    if !b && probe (minPort + i) then some (minPort + i, true :: rest)
    else (assignScan minPort probe rest (i + 1)).map (fun x => (x.1, b :: x.2))

/-- `paService.AssignPort`.  `none` models the `"no more ports available"`
error. -/
def PAService.assignPort (pa : PAService) (probe : Nat → Bool) : Option (Nat × PAService) :=
  (assignScan pa.minPASVPort probe pa.cAssigned 0).map
    (fun x => (x.1, { pa with cAssigned := x.2, free := pa.free - 1 }))

/-- `paService.ReleasePort`: unconditionally clears the slot and increments
`free` — there is no check that the slot was in use.  (Go panics when the
index is out of the slice; `List.set` is a no-op there; every release in the
claims is in range.) -/
def PAService.releasePort (pa : PAService) (port : Nat) : PAService :=
  { pa with cAssigned := pa.cAssigned.set (port - pa.minPASVPort) false
            free := pa.free + 1 }

/-! ## Data channel (ftp/datachannel/datachannel.go) -/

/-- Sequential state of a `dataChannel`.  The listener, accepted connection
and TLS wrapper are modelled by presence flags (their byte traffic is carried
by the background task, outside the per-command state). -/
structure DataChannel where
  port : Nat
  hasListener : Bool
  hasConnection : Bool
  hasSecureConnection : Bool
  encrypted : Bool
deriving DecidableEq

/-- `datachannel.New`: acquires a port from the pool; fields start nil/false.
`none` models the error returned when `AssignPort` fails. -/
def dataChannelNew (pa : PAService) (probe : Nat → Bool) (encrypted : Bool) :
    Option (DataChannel × PAService) :=
  (pa.assignPort probe).map
    (fun x =>
      ({ port := x.1, hasListener := false, hasConnection := false,
         hasSecureConnection := false, encrypted := encrypted }, x.2))

/-- `dataChannel.IsClosed`: true iff the port field is zero. -/
def DataChannel.isClosed (dc : DataChannel) : Bool :=
  dc.port == 0

/-- `dataChannel.ToPASVStringPort`: `hi = port >> 8`, `lo = port - hi*256`. -/
def DataChannel.toPASVStringPort (dc : DataChannel) : String :=
  let iHigh := dc.port >>> 8
  let iLow := dc.port - iHigh * 256
  s!"{iHigh},{iLow}"

/-- `dataChannel.SetEncrypted`. -/
def DataChannel.setEncrypted (dc : DataChannel) (encrypt : Bool) : DataChannel :=
  { dc with encrypted := encrypt }

/-- `dataChannel.Close` (datachannel.go lines 194-224): signals the kill
channel, closes the TLS wrapper, the accepted connection and the listener,
and, when `port != 0`, returns the port to the pool.  The Go code never
resets `dc.port` to `0`. -/
def DataChannel.close (dc : DataChannel) (pa : PAService) : DataChannel × PAService :=
  let dc1 := { dc with hasSecureConnection := false, hasConnection := false,
                       hasListener := false }
  if dc1.port ≠ 0 then (dc1, pa.releasePort dc1.port) else (dc1, pa)

/-! ## Identity (identity/basic/basicIdentity.go) -/

/-- `basicIdentity`: a username plus the authenticated flag. -/
structure Identity where
  username : String
  authenticated : Bool
deriving DecidableEq

/-! ## File-provider model (ftp/fs interfaces, consumed by the session)

The concrete backends are out of scope; the session sees the `FileProvider`
and `File` interfaces.  They are modelled by a current directory plus pure
oracles describing the backend's answers (each oracle takes the current
directory and the argument; `Except` carries the backend error text). -/

structure FileEntry where
  name : String
  fullPath : String
  size : Int
deriving DecidableEq

structure FileProvider where
  curDir : String
  cdOracle : String → String → Except String String
  listOracle : String → Except String (List FileEntry)
  getOracle : String → String → Except String FileEntry
  newOracle : String → String → Except String FileEntry
  createDirOracle : String → String → Except String Unit
  removeDirOracle : String → String → Except String Unit
  deleteOracle : FileEntry → Except String Unit

/-- `FileProvider.ChangeDirectory`: on success the navigation state moves to
the directory reported by the backend; on error it is unchanged. -/
def FileProvider.changeDirectory (fp : FileProvider) (path : String) :
    Except String FileProvider :=
  (fp.cdOracle fp.curDir path).map (fun d => { fp with curDir := d })

/-! ## Session state and command handlers (ftp/session) -/

/-- Oracles for the effects a command handler can trigger outside the
session state: the injected authenticator, `getLocalIP`, the port probe
bind, `net.Listen` inside `dataChannel.Open`, and `SwitchToTLS`. -/
structure World where
  auth : String → String → Bool
  localIP : Except String String
  probe : Nat → Bool
  listen : Nat → Except String Unit
  switchTLS : Except String Unit

/-- The session fields the handlers read and write (session.go `Session`).
`isSecure` is `conn.IsSecure()`, `hasCert` is `cert != nil`. -/
structure SessionState where
  id : Identity
  lastREST : Int
  fp : FileProvider
  lastDataChanneler : Option DataChannel
  pa : PAService
  dataChannelEncryption : Bool
  isSecure : Bool
  hasCert : Bool

/-- Result of one handler run: new state, statements written to the control
connection, and the `terminateProcessing` flag. -/
structure HRes where
  st : SessionState
  out : List String
  term : Bool

/-- `dataChannel.Open`: binds the listener on the assigned port (oracle
`listen`); the spawned background accept task is asynchronous and not part
of the sequential state. -/
def DataChannel.open (dc : DataChannel) (w : World) : Except String DataChannel :=
  (w.listen dc.port).map (fun _ => { dc with hasListener := true })

/-- `Session.retrievePassivePort`: closes and drops any previous data channel
(releasing its port), then allocates a fresh channel from the pool.  Returns
the updated pool, the new channel slot and the error (`none` on success);
note the close of the previous channel happens even when the subsequent
allocation fails. -/
def retrievePassivePort (pa : PAService) (ldc : Option DataChannel)
    (probe : Nat → Bool) (enc : Bool) :
    PAService × Option DataChannel × Option String :=
  let pa1 :=
    match ldc with
    | some dc => (dc.close pa).2
    | none => pa
  match dataChannelNew pa1 probe enc with
  | none => (pa1, none, some "no more ports available")
  | some x => (x.2, some x.1, none)

/-! ### Command handlers (ftp/session/commands.go) -/

def processSYST (st : SessionState) (_tokens : List String) (_w : World) : HRes :=
  ⟨st, ["215 UNIX Type: L8"], false⟩

def processQUIT (st : SessionState) (_tokens : List String) (_w : World) : HRes :=
  ⟨st, ["221 Goodbye."], true⟩

def processNOOP (st : SessionState) (_tokens : List String) (_w : World) : HRes :=
  ⟨st, ["200 NOOP ok."], false⟩

/-- The `commands` table of session.go. -/
def commands : List String :=
  ["USER", "PASS", "PWD", "TYPE", "PASV", "EPSV", "LIST", "SYST", "CWD", "CDUP",
   "SIZE", "RETR", "STOR", "DELE", "FEAT", "QUIT", "NOOP", "MKD", "RMD", "REST",
   "NLST"]

/-- The FEAT reply buffer: the command table, ` AUTH` when a certificate is
configured and the control stream is not already secure, then `211 End`. -/
def featString (hasCert isSecure : Bool) : String :=
  "211-Features:\r\n"
    ++ String.join (commands.map (fun c => " " ++ c ++ "\r\n"))
    ++ (if hasCert && !isSecure then " AUTH\r\n" else "")
    ++ "211 End"

def processFEAT (st : SessionState) (_tokens : List String) (_w : World) : HRes :=
  ⟨st, [featString st.hasCert st.isSecure], false⟩

def processPWD (st : SessionState) (_tokens : List String) (_w : World) : HRes :=
  let d := st.fp.curDir
  ⟨st, [s!"257 \"{d}\""], false⟩

def processCWD (st : SessionState) (tokens : List String) (_w : World) : HRes :=
  if tokens.length < 2 then ⟨st, ["550 Failed to change directory"], false⟩
  else
    let path := clearPathD (String.intercalate " " (tokens.drop 1))
    match st.fp.changeDirectory path with
    | .error _ => ⟨st, ["550 Failed to change directory"], false⟩
    | .ok fp1 => ⟨{ st with fp := fp1 }, ["250 Directory successfully changed"], false⟩

def processCDUP (st : SessionState) (_tokens : List String) (w : World) : HRes :=
  processCWD st ["CWD", ".."] w

/-- `processRETR`: consumes (and resets) the pending REST offset, resolves
the file, then hands the data channel to the sink; the transfer itself (and
its `150`/`226`/`550` statements) runs on the background task. -/
def processRETR (st : SessionState) (tokens : List String) (_w : World) : HRes :=
  let st := { st with lastREST := 0 }   -- rest := ses.lastREST; ses.lastREST = 0
  if tokens.length < 2 then ⟨st, ["501 object needed!"], false⟩
  else
    let file := clearPathD (String.intercalate " " (tokens.drop 1))
    match st.fp.getOracle st.fp.curDir file with
    | .error e => ⟨st, [s!"550 Could not get file: {e}."], false⟩
    | .ok _ => ⟨{ st with lastDataChanneler := none }, [], false⟩

def processSTOR (st : SessionState) (tokens : List String) (_w : World) : HRes :=
  if tokens.length < 2 then ⟨st, ["501 object needed!"], false⟩
  else
    match st.fp.newOracle st.fp.curDir (String.intercalate " " (tokens.drop 1)) with
    | .error e => ⟨st, [s!"550 Could not create file file: {e}."], false⟩
    | .ok _ => ⟨{ st with lastDataChanneler := none }, [], false⟩

/-- `processLIST` (commands.go lines 237-314): saves the current directory;
with a path argument changes to it (raw `tokens[1]`, not cleaned); lists;
only when listing succeeded (and a path argument was given) changes back;
then hands the composed listing to the data channel (the buffer text and the
`150`/`226` statements travel on the background task). -/
def processLIST (st : SessionState) (tokens : List String) (_w : World) : HRes :=
  let lastCWD := st.fp.curDir
  let step1 : Except String FileProvider :=
    if tokens.length > 1 then st.fp.changeDirectory (tokens.getD 1 "")
    else .ok st.fp
  match step1 with
  | .error e => ⟨st, [s!"451 cannot retrieve directory list: {e}"], false⟩
  | .ok fp1 =>
    match fp1.listOracle fp1.curDir with
    | .error e => ⟨{ st with fp := fp1 }, [s!"451 cannot retrieve directory list: {e}"], false⟩
    | .ok _files =>
      let step2 : Except String FileProvider :=
        if tokens.length > 1 then fp1.changeDirectory lastCWD
        else .ok fp1
      match step2 with
      | .error e => ⟨{ st with fp := fp1 }, [s!"451 cannot retrieve directory list: {e}"], false⟩
      | .ok fp2 => ⟨{ st with fp := fp2, lastDataChanneler := none }, [], false⟩

/-- `processNLST`: same directory handling as LIST, bare-names buffer. -/
def processNLST (st : SessionState) (tokens : List String) (_w : World) : HRes :=
  let lastCWD := st.fp.curDir
  let step1 : Except String FileProvider :=
    if tokens.length > 1 then st.fp.changeDirectory (tokens.getD 1 "")
    else .ok st.fp
  match step1 with
  | .error e => ⟨st, [s!"451 cannot retrieve directory list: {e}"], false⟩
  | .ok fp1 =>
    match fp1.listOracle fp1.curDir with
    | .error e => ⟨{ st with fp := fp1 }, [s!"451 cannot retrieve directory list: {e}"], false⟩
    | .ok _files =>
      let step2 : Except String FileProvider :=
        if tokens.length > 1 then fp1.changeDirectory lastCWD
        else .ok fp1
      match step2 with
      | .error e => ⟨{ st with fp := fp1 }, [s!"451 cannot retrieve directory list: {e}"], false⟩
      | .ok fp2 => ⟨{ st with fp := fp2, lastDataChanneler := none }, [], false⟩

def processUSER (st : SessionState) (tokens : List String) (_w : World) : HRes :=
  if tokens.length < 2 then ⟨st, ["501 user needed!"], false⟩
  else
    let st1 := { st with id.username := tokens.getD 1 "" }
    let u := st1.id.username
    ⟨st1, [s!"331 Password required for {u}."], false⟩

def processPASS (st : SessionState) (tokens : List String) (w : World) : HRes :=
  if tokens.length < 2 then ⟨st, ["501 password needed!"], false⟩
  else
    let password := tokens.getD 1 ""
    if !w.auth st.id.username password then
      ⟨{ st with id := { username := "", authenticated := false } },
       ["530 Password Rejected"], false⟩
    else
      let u := st.id.username
      ⟨{ st with id.authenticated := true }, [s!"230 User {u} logged in."], false⟩

def processPASV (st : SessionState) (_tokens : List String) (w : World) : HRes :=
  match w.localIP with
  | .error e => ⟨st, [s!"550 Could not get local IP: {e}"], false⟩
  | .ok ip =>
    let r := retrievePassivePort st.pa st.lastDataChanneler w.probe st.dataChannelEncryption
    let st1 := { st with pa := r.1, lastDataChanneler := r.2.1 }
    match r.2.2 with
    | some e => ⟨st1, [s!"550 Could not allocate passive port: {e}"], false⟩
    | none =>
      let s := ip.map (fun ch => if ch = '.' then ',' else ch)
      match r.2.1 with
      | none => ⟨st1, [], false⟩   -- unreachable: allocation just succeeded
      | some dc =>
        match dc.open w with
        | .error e => ⟨st1, [s!"550 Could not open passive port: {e}"], false⟩
        | .ok dc1 =>
          ⟨{ st1 with lastDataChanneler := some dc1 },
           ["227 Entering Passive Mode (" ++ s ++ "," ++ dc1.toPASVStringPort ++ ")"],
           false⟩

def processEPSV (st : SessionState) (_tokens : List String) (w : World) : HRes :=
  let r := retrievePassivePort st.pa st.lastDataChanneler w.probe st.dataChannelEncryption
  let st1 := { st with pa := r.1, lastDataChanneler := r.2.1 }
  match r.2.2 with
  | some e => ⟨st1, [s!"550 Could not allocate passive port: {e}"], false⟩
  | none =>
    match r.2.1 with
    | none => ⟨st1, [], false⟩   -- unreachable: allocation just succeeded
    | some dc =>
      match dc.open w with
      | .error e => ⟨st1, [s!"550 Could not open passive port: {e}"], false⟩
      | .ok dc1 =>
        let p := dc1.port
        ⟨{ st1 with lastDataChanneler := some dc1 },
         [s!"229 Entering Extended Passive Mode (|||{p}|)"], false⟩

def processTYPE (st : SessionState) (tokens : List String) (_w : World) : HRes :=
  if tokens.length < 2 then ⟨st, ["501 type needed!"], false⟩
  else
    let t := tokens.getD 1 ""
    if t.toLower ≠ "i" ∧ t.toLower ≠ "a" then
      ⟨st, [s!"504 Type I and A are the only one supported. {t} is not supported at this time"],
       false⟩
    else
      let u := t.toUpper
      ⟨st, [s!"200 Type set to {u}"], false⟩

def processSIZE (st : SessionState) (tokens : List String) (_w : World) : HRes :=
  if tokens.length < 2 then ⟨st, ["501 object needed!"], false⟩
  else
    let file := clearPathD (String.intercalate " " (tokens.drop 1))
    match st.fp.getOracle st.fp.curDir file with
    | .error e => ⟨st, [s!"550 Could not get file: {e}."], false⟩
    | .ok f =>
      let sz := f.size
      ⟨st, [s!"213 {sz}"], false⟩

/-- `processMKD`: note the source guards `len(tokens) < 1`, which never fires
(dispatch guarantees one token), so `MKD` without argument creates `""`. -/
def processMKD (st : SessionState) (tokens : List String) (_w : World) : HRes :=
  if tokens.length < 1 then ⟨st, ["501 folder name needed"], false⟩
  else
    let path := String.intercalate " " (tokens.drop 1)
    match st.fp.createDirOracle st.fp.curDir path with
    | .error e => ⟨st, [s!"550 cannot create folder {path} ({e})"], false⟩
    | .ok _ =>
      match st.fp.getOracle st.fp.curDir path with
      | .error e => ⟨st, [s!"550 cannot create folder {path} ({e})"], false⟩
      | .ok dir =>
        let fp := dir.fullPath
        ⟨st, [s!"257 \"{fp}\" directory created"], false⟩

/-- `processRMD`; the error statement interpolates `tokens[1]` (Go panics
when it is absent; modelled by the empty default, unreachable via claims). -/
def processRMD (st : SessionState) (tokens : List String) (_w : World) : HRes :=
  if tokens.length < 1 then ⟨st, ["501 folder name needed"], false⟩
  else
    let tok1 := tokens.getD 1 ""
    match st.fp.removeDirOracle st.fp.curDir (String.intercalate " " (tokens.drop 1)) with
    | .error e => ⟨st, [s!"550 cannot delete folder {tok1} ({e})"], false⟩
    | .ok _ => ⟨st, ["250 folder deleted successfully"], false⟩

def processDELE (st : SessionState) (tokens : List String) (_w : World) : HRes :=
  if tokens.length < 1 then ⟨st, ["501 file name needed"], false⟩
  else
    let tok1 := tokens.getD 1 ""
    match st.fp.getOracle st.fp.curDir (String.intercalate " " (tokens.drop 1)) with
    | .error e => ⟨st, [s!"550 cannot delete file {tok1} ({e})"], false⟩
    | .ok f =>
      match st.fp.deleteOracle f with
      | .error e => ⟨st, [s!"550 cannot delete file {tok1} ({e})"], false⟩
      | .ok _ => ⟨st, ["200 file delete successfully"], false⟩

/-! ### Model of the inverted Sscanf call in processREST

`processREST` calls `fmt.Sscanf("%d", tokens[1], &ses.lastREST)` — note the
argument order: the string to scan is the literal `"%d"` and the client's
token is used as the format. -/

/-- Value of a leading digit run; `none` when there is no leading digit. -/
def digitRunVal (l : List Char) : Option Nat :=
  let ds := l.takeWhile Char.isDigit
  if ds = [] then none
  else some (ds.foldl (fun a c => a * 10 + (c.toNat - 48)) 0)

/-- Go `%d` scanning: optional sign then a nonempty digit run (the rest of
the input may remain unconsumed).  Int64 overflow is not modelled. -/
def parseGoInt (l : List Char) : Except String Int :=
  match l with
  | '-' :: rest =>
    match digitRunVal rest with
    | none => .error "expected integer"
    | some n => .ok (-(n : Int))
  | '+' :: rest =>
    match digitRunVal rest with
    | none => .error "expected integer"
    | some n => .ok ((n : Int))
  | _ =>
    match digitRunVal l with
    | none => .error "expected integer"
    | some n => .ok ((n : Int))

/-- Scan `src` under `fmtChars`: a literal format character must match the
next input character; `%d` fills the single integer operand; an exhausted
format leaves the operand unfilled (`too few operands`). -/
def scanAux : List Char → List Char → Except String Int
  | '%' :: 'd' :: _, src => parseGoInt src
  | [], _ => .error "too few operands"
  | _ :: _, [] => .error "unexpected EOF"
  | c :: fs, s :: ss =>
    if c = s then scanAux fs ss else .error "input does not match format"

/-- Model of `fmt.Sscanf(str, format, &x)` for a single `*int64` operand,
restricted to formats whose only verb is `%d` — the only shapes reachable
from `processREST`, whose call site passes the literal `"%d"` as `str` and
the client-supplied token as `format`. -/
def goSscanfInt (str formatStr : String) : Except String Int :=
  scanAux formatStr.data str.data

/-- `processREST` (commands.go lines 578-596), including the inverted
`Sscanf` call.  The source guards `len(tokens) < 1` (never true), so `REST`
with no argument reaches `tokens[1]` (a Go panic, modelled by the empty
default). -/
def processREST (st : SessionState) (tokens : List String) (_w : World) : HRes :=
  if tokens.length < 1 then ⟨st, ["501 size needed"], false⟩
  else
    match goSscanfInt "%d" (tokens.getD 1 "") with
    | .error e => ⟨st, [s!"550 syntax error ({e})"], false⟩
    | .ok n => ⟨{ st with lastREST := n }, ["350 start position moved successfully"], false⟩

def processAUTH (st : SessionState) (tokens : List String) (w : World) : HRes :=
  if !st.hasCert || st.isSecure then ⟨st, ["502 not supported"], false⟩
  else if tokens.length < 2 then ⟨st, ["550 must specify protocol!"], false⟩
  else if tokens.getD 1 "" ≠ "TLS" then
    let t0 := tokens.getD 0 ""
    ⟨st, [s!"503 {t0} is not supported"], false⟩   -- source interpolates tokens[0]
  else
    match w.switchTLS with
    | .error e =>
      ⟨st, ["234 Using authentication type TLS", s!"550 error initializing TLS: {e}"], false⟩
    | .ok _ => ⟨{ st with isSecure := true }, ["234 Using authentication type TLS"], false⟩

def processPROT (st : SessionState) (tokens : List String) (_w : World) : HRes :=
  if !st.isSecure then ⟨st, ["502 not supported"], false⟩
  else if tokens.length < 2 then ⟨st, ["550 must specify protection level!"], false⟩
  else
    let protLevel := (tokens.getD 1 "").toUpper
    if protLevel = "P" then
      ⟨{ st with dataChannelEncryption := true,
                 lastDataChanneler := st.lastDataChanneler.map (·.setEncrypted true) },
       ["200 data channel TLS encryption enabled"], false⟩
    else if protLevel = "C" then
      ⟨{ st with dataChannelEncryption := false,
                 lastDataChanneler := st.lastDataChanneler.map (·.setEncrypted false) },
       ["200 data channel TLS encryption disabled"], false⟩
    else ⟨st, [s!"550 {protLevel} is not supported"], false⟩

/-! ### The check pipeline (ftp/session/cmdlist.go) -/

/-- The `cmdlist` value: session state, tokens, the statements written so
far, and whether the handler pointer `pe` is still non-nil. -/
structure CmdCtx where
  st : SessionState
  tokens : List String
  replies : List String
  pe : Bool

def newCmdList (st : SessionState) (tokens : List String) : CmdCtx :=
  ⟨st, tokens, [], true⟩

/-- `cmdlist.requireAuth`: when the handler is still scheduled and the
session is not authenticated, reply `530` and unschedule it. -/
def requireAuth (cmd : CmdCtx) : CmdCtx :=
  if !cmd.pe then cmd
  else if !cmd.st.id.authenticated then
    { cmd with replies := cmd.replies ++ ["530 Please login with USER and PASS."], pe := false }
  else cmd

/-- `cmdlist.requirePASV`: when no data channel exists or it is closed,
reply `425` and unschedule the handler. -/
def requirePASV (cmd : CmdCtx) : CmdCtx :=
  if !cmd.pe then cmd
  else if (match cmd.st.lastDataChanneler with
           | none => true
           | some dc => dc.isClosed) then
    { cmd with replies := cmd.replies ++ ["425 Use PASV or EPSV first"], pe := false }
  else cmd

/-- `cmdlist.resetREST`: unconditionally clears the pending offset. -/
def resetREST (cmd : CmdCtx) : CmdCtx :=
  { cmd with st.lastREST := 0 }

/-- `cmdlist.resetUSER`: clears the stored username unless authenticated. -/
def resetUSER (cmd : CmdCtx) : CmdCtx :=
  if !cmd.st.id.authenticated then { cmd with st.id.username := "" } else cmd

/-- `cmdlist.Execute`: runs the handler when it is still scheduled.  The
extra `ranHandler` field records exactly whether `pe` was non-nil here. -/
structure StepResult where
  st : SessionState
  replies : List String
  terminate : Bool
  ranHandler : Bool

def Execute (cmd : CmdCtx) (pe : SessionState → List String → World → HRes) (w : World) :
    StepResult :=
  if cmd.pe then
    let r := pe cmd.st cmd.tokens w
    ⟨r.st, cmd.replies ++ r.out, r.term, true⟩
  else ⟨cmd.st, cmd.replies, false, false⟩

/-! ### Command dispatch (session.go Handle, lines 146-195) -/

/-- One iteration of the `Handle` loop on an already-tokenized command:
dispatch on `tokens[0]` through the per-command check pipeline, exactly as in
the `switch` of session.go (an empty token list is skipped; an unknown token
replies `502 not implemented`). -/
def handleTokens (st : SessionState) (w : World) (tokens : List String) : StepResult :=
  match tokens.head? with
  | none => ⟨st, [], false, false⟩
  | some t =>
    if t = "USER" then Execute (resetREST (newCmdList st tokens)) processUSER w
    else if t = "PASS" then Execute (resetREST (newCmdList st tokens)) processPASS w
    else if t = "PWD" then
      Execute (resetREST (resetUSER (requireAuth (newCmdList st tokens)))) processPWD w
    else if t = "TYPE" then
      Execute (resetREST (resetUSER (requireAuth (newCmdList st tokens)))) processTYPE w
    else if t = "PASV" then
      Execute (resetREST (resetUSER (requireAuth (newCmdList st tokens)))) processPASV w
    else if t = "EPSV" then
      Execute (resetREST (resetUSER (requireAuth (newCmdList st tokens)))) processEPSV w
    else if t = "LIST" then
      Execute (resetREST (resetUSER (requirePASV (requireAuth (newCmdList st tokens))))) processLIST w
    else if t = "SYST" then
      Execute (resetREST (resetUSER (newCmdList st tokens))) processSYST w
    else if t = "CWD" then
      Execute (resetREST (resetUSER (requireAuth (newCmdList st tokens)))) processCWD w
    else if t = "CDUP" then
      Execute (resetREST (resetUSER (requireAuth (newCmdList st tokens)))) processCDUP w
    else if t = "SIZE" then
      Execute (resetREST (resetUSER (requireAuth (newCmdList st tokens)))) processSIZE w
    else if t = "RETR" then
      Execute (requirePASV (resetUSER (requireAuth (newCmdList st tokens)))) processRETR w
    else if t = "STOR" then
      Execute (requirePASV (resetREST (resetUSER (requireAuth (newCmdList st tokens))))) processSTOR w
    else if t = "FEAT" then
      Execute (resetREST (resetUSER (requireAuth (newCmdList st tokens)))) processFEAT w
    else if t = "QUIT" then
      Execute (resetREST (resetUSER (newCmdList st tokens))) processQUIT w
    else if t = "NOOP" then
      Execute (resetREST (resetUSER (newCmdList st tokens))) processNOOP w
    else if t = "MKD" then
      Execute (resetREST (resetUSER (requireAuth (newCmdList st tokens)))) processMKD w
    else if t = "RMD" then
      Execute (resetREST (resetUSER (requireAuth (newCmdList st tokens)))) processRMD w
    else if t = "DELE" then
      Execute (resetREST (resetUSER (requireAuth (newCmdList st tokens)))) processDELE w
    else if t = "REST" then
      Execute (resetREST (resetUSER (requirePASV (requireAuth (newCmdList st tokens))))) processREST w
    else if t = "NLST" then
      Execute (resetREST (resetUSER (requirePASV (requireAuth (newCmdList st tokens))))) processNLST w
    else if t = "AUTH" then
      Execute (resetREST (resetUSER (newCmdList st tokens))) processAUTH w
    else if t = "PROT" then
      Execute (resetREST (resetUSER (requireAuth (newCmdList st tokens)))) processPROT w
    else ⟨st, ["502 not implemented"], false, false⟩

/-- Segments of a line between whitespace characters. -/
def splitWS : List Char → List (List Char)
  | [] => [[]]
  | c :: cs => if c.isWhitespace then [] :: splitWS cs else consHead c (splitWS cs)

/-- Model of Go `strings.Fields`: whitespace-separated tokens, no empties. -/
def goFields (s : String) : List String :=
  ((splitWS s.data).filter (· ≠ [])).map String.mk

/-- One iteration of `Session.Handle` on a raw command line. -/
def handleLine (st : SessionState) (w : World) (line : String) : StepResult :=
  handleTokens st w (goFields line)

/-- True when the segment list has no two consecutive `".."` segments. -/
def noConsecDdot : List (List Char) → Bool
  | x :: y :: rest => (!(decide (x = ddot) && decide (y = ddot))) && noConsecDdot (y :: rest)
  | _ => true

/-! ### Concrete sample states used by witnesses and counterexamples -/

/-- A backend whose `List` call fails: `cd` moves to `/x` or back to `/`. -/
def sampleFP : FileProvider :=
  { curDir := "/"
    cdOracle := fun _ p => if p = "/x" then .ok "/x" else .ok "/"
    listOracle := fun _ => .error "backend unavailable"
    getOracle := fun _ _ => .error "no such file"
    newOracle := fun _ _ => .error "no such file"
    createDirOracle := fun _ _ => .ok ()
    removeDirOracle := fun _ _ => .ok ()
    deleteOracle := fun _ => .ok () }

/-- A backend whose `List` call succeeds. -/
def sampleFPList : FileProvider :=
  { sampleFP with listOracle := fun _ => .ok [] }

/-- Oracles: the authenticator rejects everything; the network succeeds. -/
def sampleWorld : World :=
  { auth := fun _ _ => false
    localIP := .ok "10.0.0.1"
    probe := fun _ => true
    listen := fun _ => .ok ()
    switchTLS := .ok () }

/-- An open data channel on port 5000. -/
def sampleDC : DataChannel :=
  { port := 5000, hasListener := true, hasConnection := false,
    hasSecureConnection := false, encrypted := false }

/-- A session that has not authenticated. -/
def sampleUnauthState : SessionState :=
  { id := { username := "", authenticated := false }
    lastREST := 0
    fp := sampleFP
    lastDataChanneler := none
    pa := paNew 5000 5002
    dataChannelEncryption := false
    isSecure := false
    hasCert := false }

/-- An authenticated session with an open data channel and a pending REST
offset. -/
def sampleAuthState : SessionState :=
  { sampleUnauthState with
      id := { username := "alice", authenticated := true }
      lastDataChanneler := some sampleDC
      lastREST := 7 }

/-- The authenticated sample session over the backend whose `List`
succeeds. -/
def sampleAuthStateList : SessionState :=
  { sampleAuthState with fp := sampleFPList }

/-- The dispatch-table commands whose chain contains `requireAuth`
(session.go lines 146-195). -/
def gatedCommands : List String :=
  ["PWD", "TYPE", "PASV", "EPSV", "LIST", "CWD", "CDUP", "SIZE", "RETR", "STOR",
   "FEAT", "MKD", "RMD", "DELE", "REST", "NLST", "PROT"]

/-- The dispatch-table commands whose chain does not contain `requireAuth`. -/
def openCommands : List String :=
  ["USER", "PASS", "QUIT", "NOOP", "SYST", "AUTH"]

/-- All tokens the `switch` of `Session.Handle` dispatches on, in source
order. -/
def dispatchCommands : List String :=
  ["USER", "PASS", "PWD", "TYPE", "PASV", "EPSV", "LIST", "SYST", "CWD", "CDUP",
   "SIZE", "RETR", "STOR", "FEAT", "QUIT", "NOOP", "MKD", "RMD", "DELE", "REST",
   "NLST", "AUTH", "PROT"]

/-- The channel produced by `datachannel.New` on the fresh pool
`paNew 5000 5002` (probe always succeeding). -/
def sampleDCNew : DataChannel :=
  { port := 5000, hasListener := false, hasConnection := false,
    hasSecureConnection := false, encrypted := false }

/-- The pool state after that allocation: slot for 5000 in use. -/
def samplePA1 : PAService :=
  { minPASVPort := 5000, maxPASVPort := 5002, cAssigned := [true, false], free := 1 }

/-! ## Lemmas about the path normalizer -/

theorem consHead_ne_nil (c : Char) (l : List (List Char)) : consHead c l ≠ [] := by
  cases l <;> simp [consHead]

theorem splitSlash_ne_nil : ∀ l : List Char, splitSlash l ≠ []
  | [] => by simp [splitSlash]
  | c :: cs => by
    by_cases hc : c = '/'
    · simp [splitSlash, hc]
    · simp only [splitSlash, if_neg hc]
      exact consHead_ne_nil c _

theorem not_slash_mem_splitSlash : ∀ l t, t ∈ splitSlash l → '/' ∉ t
  | [], t, ht => by
    simp only [splitSlash, List.mem_singleton] at ht
    subst ht
    simp
  | c :: cs, t, ht => by
    by_cases hc : c = '/'
    · simp only [splitSlash, if_pos hc, List.mem_cons] at ht
      rcases ht with h | h
      · subst h; simp
      · exact not_slash_mem_splitSlash cs t h
    · simp only [splitSlash, if_neg hc] at ht
      rcases hs : splitSlash cs with _ | ⟨z, zs⟩
      · exact absurd hs (splitSlash_ne_nil cs)
      · rw [hs, consHead, List.mem_cons] at ht
        rcases ht with h | h
        · subst h
          intro hmem
          rcases List.mem_cons.mp hmem with h1 | h1
          · exact hc h1.symm
          · exact not_slash_mem_splitSlash cs z (hs ▸ List.mem_cons_self z zs) h1
        · exact not_slash_mem_splitSlash cs t (hs ▸ List.mem_cons_of_mem z h)

theorem splitSlash_eq_self : ∀ x : List Char, '/' ∉ x → splitSlash x = [x]
  | [], _ => rfl
  | c :: cs, h => by
    have hc : c ≠ '/' := fun e => h (e ▸ List.mem_cons_self c cs)
    have ih : splitSlash cs = [cs] :=
      splitSlash_eq_self cs (fun hm => h (List.mem_cons_of_mem c hm))
    simp [splitSlash, hc, ih, consHead]

theorem splitSlash_append : ∀ x r : List Char, '/' ∉ x →
    splitSlash (x ++ '/' :: r) = x :: splitSlash r
  | [], r, _ => by simp [splitSlash]
  | c :: cs, r, h => by
    have hc : c ≠ '/' := fun e => h (e ▸ List.mem_cons_self c cs)
    have ih := splitSlash_append cs r (fun hm => h (List.mem_cons_of_mem c hm))
    simp [splitSlash, hc, ih, consHead]

theorem splitSlash_joinSlash : ∀ l : List (List Char), l ≠ [] →
    (∀ t ∈ l, '/' ∉ t) → splitSlash (joinSlash l) = l
  | [], h, _ => absurd rfl h
  | [x], _, hall => by
    simp only [joinSlash]
    exact splitSlash_eq_self x (hall x (List.mem_singleton_self x))
  | x :: y :: ys, _, hall => by
    have hx : '/' ∉ x := hall x (List.mem_cons_self _ _)
    have ih : splitSlash (joinSlash (y :: ys)) = y :: ys :=
      splitSlash_joinSlash (y :: ys) (by simp)
        (fun t ht => hall t (List.mem_cons_of_mem x ht))
    simp only [joinSlash]
    rw [splitSlash_append x _ hx, ih]

theorem collapse_eq_self : ∀ l : List (List Char), ddot ∉ l → collapse l = l
  | [], _ => rfl
  | [x], h => by
    have hx : x ≠ ddot := fun e => h (e ▸ List.mem_singleton_self x)
    simp [collapse, hx]
  | x :: y :: rest, h => by
    have hy : y ≠ ddot := fun e => h (by simp [e])
    have htail : ddot ∉ y :: rest := fun hm => h (List.mem_cons_of_mem x hm)
    simp [collapse, hy, collapse_eq_self (y :: rest) htail]

theorem joinSlash_cons_head (c : Char) (x : List Char) :
    ∀ fs, ∃ t, joinSlash ((c :: x) :: fs) = c :: t
  | [] => ⟨x, rfl⟩
  | y :: ys => ⟨x ++ '/' :: joinSlash (y :: ys), rfl⟩

theorem noConsecDdot_tail (y : List Char) (rest : List (List Char))
    (h : noConsecDdot (y :: rest) = true) : noConsecDdot rest = true := by
  cases rest with
  | nil => rfl
  | cons z zs =>
    rw [noConsecDdot, Bool.and_eq_true] at h
    exact h.2

theorem noConsecDdot_head (x y : List Char) (rest : List (List Char))
    (h : noConsecDdot (x :: y :: rest) = true) : ¬(x = ddot ∧ y = ddot) := by
  rw [noConsecDdot, Bool.and_eq_true] at h
  intro hxy
  have := h.1
  rw [hxy.1, hxy.2] at this
  simp at this

/-- A surviving `".."` requires the token list to begin with `".."` or to
contain two consecutive `".."` tokens (given how the Go loop pairs them). -/
theorem ddot_not_mem_collapse : ∀ l : List (List Char),
    l.head? ≠ some ddot →
    noConsecDdot l = true →
    ddot ∉ collapse l
  | [], _, _ => by simp [collapse]
  | [x], hh, _ => by
    have hx : x ≠ ddot := fun e => hh (by simp [e])
    simp [collapse, hx]
    exact fun e => hx e.symm
  | x :: y :: rest, hh, hc => by
    have hx : x ≠ ddot := fun e => hh (by simp [e])
    by_cases hy : y = ddot
    · have hrest : rest.head? ≠ some ddot := by
        cases rest with
        | nil => simp
        | cons z zs =>
          intro hz
          simp only [List.head?_cons, Option.some.injEq] at hz
          exact noConsecDdot_head y z zs (noConsecDdot_tail x (y :: z :: zs) hc) ⟨hy, hz⟩
      have := ddot_not_mem_collapse rest hrest
        (noConsecDdot_tail y rest (noConsecDdot_tail x (y :: rest) hc))
      simp [collapse, hy, this]
    · have := ddot_not_mem_collapse (y :: rest) (by simpa using hy)
        (noConsecDdot_tail x (y :: rest) hc)
      simp [collapse, hy, List.mem_cons]
      exact ⟨fun e => hx e.symm, this⟩

theorem clearPathCore_cons (c : Char) (d0 : List Char) (h : (c :: d0 : List Char) ≠ ddot) :
    clearPathCore (c :: d0) =
      (if c = '/' then some ('/' :: joinSlash (collapse ((splitSlash (c :: d0)).filter (· ≠ []))))
       else if joinSlash (collapse ((splitSlash (c :: d0)).filter (· ≠ []))) = [] then some ['/']
       else some (joinSlash (collapse ((splitSlash (c :: d0)).filter (· ≠ []))))) := by
  simp only [clearPathCore, if_neg h]

/-- Cleaning an already-clean absolute path is the identity. -/
theorem clearPathCore_abs (fil : List (List Char)) (hnot : ddot ∉ fil)
    (helts : ∀ t ∈ fil, '/' ∉ t) (hnonempty : ∀ t ∈ fil, t ≠ []) :
    clearPathCore ('/' :: joinSlash fil) = some ('/' :: joinSlash fil) := by
  cases fil with
  | nil => decide
  | cons x fs =>
    have hsplit : splitSlash (joinSlash (x :: fs)) = x :: fs :=
      splitSlash_joinSlash _ (by simp) helts
    have hfilid : ((x :: fs).filter (· ≠ [])) = x :: fs :=
      List.filter_eq_self.mpr (fun a ha => by simpa using hnonempty a ha)
    have hcoll : collapse (x :: fs) = x :: fs := collapse_eq_self _ hnot
    have hq : ('/' :: joinSlash (x :: fs) : List Char) ≠ ddot := by
      intro e
      injection e with e1 _
      exact absurd e1 (by decide)
    rw [clearPathCore_cons '/' (joinSlash (x :: fs)) hq, if_pos rfl]
    have hsp : splitSlash ('/' :: joinSlash (x :: fs)) = [] :: (x :: fs) := by
      simp [splitSlash, hsplit]
    rw [hsp, List.filter_cons_of_neg, hfilid, hcoll]
    decide

/-- Cleaning an already-clean relative path is the identity. -/
theorem clearPathCore_rel (x : List Char) (fs : List (List Char))
    (hnot : ddot ∉ x :: fs) (helts : ∀ t ∈ x :: fs, '/' ∉ t)
    (hnonempty : ∀ t ∈ x :: fs, t ≠ []) :
    clearPathCore (joinSlash (x :: fs)) = some (joinSlash (x :: fs)) := by
  have hsplit : splitSlash (joinSlash (x :: fs)) = x :: fs :=
    splitSlash_joinSlash _ (by simp) helts
  have hfilid : ((x :: fs).filter (· ≠ [])) = x :: fs :=
    List.filter_eq_self.mpr (fun a ha => by simpa using hnonempty a ha)
  have hcoll : collapse (x :: fs) = x :: fs := collapse_eq_self _ hnot
  cases x with
  | nil => exact absurd rfl (hnonempty [] (List.mem_cons_self _ _))
  | cons cx xs =>
    obtain ⟨t, ht⟩ := joinSlash_cons_head cx xs fs
    have hcx : cx ≠ '/' := by
      intro e
      exact helts (cx :: xs) (List.mem_cons_self _ _) (e ▸ List.mem_cons_self cx xs)
    have hpddot : (joinSlash ((cx :: xs) :: fs) : List Char) ≠ ddot := by
      intro e
      have hnos : '/' ∉ (joinSlash ((cx :: xs) :: fs) : List Char) := by
        rw [e]; decide
      have : splitSlash (joinSlash ((cx :: xs) :: fs)) = [joinSlash ((cx :: xs) :: fs)] :=
        splitSlash_eq_self _ hnos
      rw [hsplit] at this
      have : ddot ∈ (cx :: xs) :: fs := by
        rw [this, e]
        exact List.mem_singleton_self _
      exact hnot this
    rw [ht] at hpddot
    rw [ht, clearPathCore_cons cx t hpddot, if_neg hcx, ← ht, hsplit, hfilid, hcoll, ht]
    have hne : (cx :: t : List Char) ≠ [] := by simp
    rw [if_neg hne]

/-- Idempotence of the core cleaner on non-empty inputs without a `".."`
segment. -/
theorem clearPathCore_idem (d : List Char) (h0 : d ≠ []) (h2 : ddot ∉ splitSlash d) :
    (clearPathCore d).bind clearPathCore = clearPathCore d := by
  have hnot : ddot ∉ (splitSlash d).filter (· ≠ []) :=
    fun h => h2 (List.mem_of_mem_filter h)
  have hcoll : collapse ((splitSlash d).filter (· ≠ [])) = (splitSlash d).filter (· ≠ []) :=
    collapse_eq_self _ hnot
  have hne : d ≠ ddot := by
    intro e
    exact h2 (by rw [e]; decide)
  have helts : ∀ t ∈ (splitSlash d).filter (· ≠ []), '/' ∉ t :=
    fun t ht => not_slash_mem_splitSlash d t (List.mem_of_mem_filter ht)
  have hnonempty : ∀ t ∈ (splitSlash d).filter (· ≠ []), t ≠ [] := by
    intro t ht
    have := List.of_mem_filter ht
    simpa using this
  cases d with
  | nil => exact absurd rfl h0
  | cons c d0 =>
    rw [clearPathCore_cons c d0 hne, hcoll]
    by_cases hc : c = '/'
    · rw [if_pos hc]
      simp only [Option.bind]
      exact clearPathCore_abs _ hnot helts hnonempty
    · rw [if_neg hc]
      by_cases hp : joinSlash ((splitSlash (c :: d0)).filter (· ≠ [])) = []
      · rw [if_pos hp]
        decide
      · rw [if_neg hp]
        simp only [Option.bind]
        rcases hfil : (splitSlash (c :: d0)).filter (· ≠ []) with _ | ⟨x, fs⟩
        · rw [hfil] at hp
          exact absurd rfl hp
        · rw [hfil] at hnot helts hnonempty ⊢
          exact clearPathCore_rel x fs hnot helts hnonempty

theorem string_data_mk (l : List Char) : (String.mk l).data = l := rfl

/-! ## Claim C5 -/

/-- Claim C5, counterexample: `clean` is not idempotent on every string.  On
`"a/b/../../c"` one pass yields `"a/../c"` (the loop pairs `<b, "..">` and
then keeps the second `".."`), and a second pass collapses further to
`"c"`. -/
theorem clearPath_not_idempotent :
    (clearPath "a/b/../../c").bind clearPath ≠ clearPath "a/b/../../c" := by
  decide

/-- Claim C5, amended: `clean(clean(s)) == clean(s)` for every non-empty
string `s` none of whose slash-separated segments is `".."` (the original
claim quantified over all strings; inputs with `".."` segments refute it, and
on the empty string `clean` panics). -/
theorem clearPath_idem_of_no_ddot (s : String) (h0 : s ≠ "")
    (h2 : ddot ∉ splitSlash s.data) :
    (clearPath s).bind clearPath = clearPath s := by
  obtain ⟨d⟩ := s
  have hd : d ≠ [] := by
    intro e
    exact h0 (by rw [e])
  have hcore := clearPathCore_idem d hd h2
  show ((clearPathCore d).map String.mk).bind clearPath = (clearPathCore d).map String.mk
  cases hc : clearPathCore d with
  | none => rfl
  | some q =>
    rw [hc] at hcore
    have hq : clearPathCore q = some q := hcore
    show clearPath (String.mk q) = some (String.mk q)
    show (clearPathCore q).map String.mk = some (String.mk q)
    rw [hq]
    rfl

/-- Witness for the amended C5 at `"/root/test"`. -/
theorem clearPath_idem_of_no_ddot_witness :
    ("/root/test" : String) ≠ "" ∧ ddot ∉ splitSlash ("/root/test" : String).data ∧
    (clearPath "/root/test").bind clearPath = clearPath "/root/test" :=
  ⟨by decide, by decide, clearPath_idem_of_no_ddot "/root/test" (by decide) (by decide)⟩

/-! ## Claim C6 -/

/-- Claim C6, counterexample: `"../a"` is not the bare string `".."`, yet
`split_and_clean "../a" = ["..", "a"]` contains `".."` — the loop only
collapses a `".."` that follows another segment. -/
theorem splitAndClearPath_ddot_counterexample :
    ("../a" : String) ≠ ".." ∧ ".." ∈ splitAndClearPath "../a" := by
  decide

/-- Claim C6, amended: `split_and_clean(s)` contains no `".."` provided the
sequence of non-empty slash-separated segments of `s` neither begins with
`".."` nor contains two consecutive `".."` segments (the original claim
admitted every `s` except the bare `".."`; a leading or doubled `".."`
survives the pairwise collapse). -/
theorem splitAndClearPath_no_ddot (s : String)
    (hh : ((splitSlash s.data).filter (· ≠ [])).head? ≠ some ddot)
    (hc : noConsecDdot ((splitSlash s.data).filter (· ≠ [])) = true) :
    ".." ∉ splitAndClearPath s := by
  intro hmem
  unfold splitAndClearPath at hmem
  rcases List.mem_map.mp hmem with ⟨x, hx, hxs⟩
  have hxd : x = ddot := congrArg String.data hxs
  exact ddot_not_mem_collapse _ hh hc (hxd ▸ hx)

/-- Witness for the amended C6 at `"/root/../a"`. -/
theorem splitAndClearPath_no_ddot_witness :
    ((splitSlash ("/root/../a" : String).data).filter (· ≠ [])).head? ≠ some ddot ∧
    ".." ∉ splitAndClearPath "/root/../a" := by
  refine ⟨by decide, splitAndClearPath_no_ddot "/root/../a" (by decide) (by decide)⟩

/-! ## Lemmas about the check pipeline -/

@[simp]
theorem newCmdList_st (st : SessionState) (tokens : List String) :
    (newCmdList st tokens).st = st := rfl

@[simp]
theorem newCmdList_tokens (st : SessionState) (tokens : List String) :
    (newCmdList st tokens).tokens = tokens := rfl

@[simp]
theorem newCmdList_replies (st : SessionState) (tokens : List String) :
    (newCmdList st tokens).replies = [] := rfl

@[simp]
theorem newCmdList_pe (st : SessionState) (tokens : List String) :
    (newCmdList st tokens).pe = true := rfl

@[simp]
theorem resetREST_pe (c : CmdCtx) : (resetREST c).pe = c.pe := rfl

@[simp]
theorem resetREST_tokens (c : CmdCtx) : (resetREST c).tokens = c.tokens := rfl

@[simp]
theorem resetREST_replies (c : CmdCtx) : (resetREST c).replies = c.replies := rfl

@[simp]
theorem resetREST_st_id (c : CmdCtx) : (resetREST c).st.id = c.st.id := rfl

@[simp]
theorem resetREST_st_fp (c : CmdCtx) : (resetREST c).st.fp = c.st.fp := rfl

@[simp]
theorem resetREST_st_ldc (c : CmdCtx) :
    (resetREST c).st.lastDataChanneler = c.st.lastDataChanneler := rfl

@[simp]
theorem resetUSER_pe (c : CmdCtx) : (resetUSER c).pe = c.pe := by
  unfold resetUSER; split <;> rfl

@[simp]
theorem resetUSER_tokens (c : CmdCtx) : (resetUSER c).tokens = c.tokens := by
  unfold resetUSER; split <;> rfl

@[simp]
theorem resetUSER_replies (c : CmdCtx) : (resetUSER c).replies = c.replies := by
  unfold resetUSER; split <;> rfl

@[simp]
theorem resetUSER_st_auth (c : CmdCtx) :
    (resetUSER c).st.id.authenticated = c.st.id.authenticated := by
  unfold resetUSER; split <;> rfl

@[simp]
theorem resetUSER_st_fp (c : CmdCtx) : (resetUSER c).st.fp = c.st.fp := by
  unfold resetUSER; split <;> rfl

@[simp]
theorem resetUSER_st_ldc (c : CmdCtx) :
    (resetUSER c).st.lastDataChanneler = c.st.lastDataChanneler := by
  unfold resetUSER; split <;> rfl

@[simp]
theorem resetUSER_st_lastREST (c : CmdCtx) :
    (resetUSER c).st.lastREST = c.st.lastREST := by
  unfold resetUSER; split <;> rfl

theorem resetUSER_of_true (c : CmdCtx) (h : c.st.id.authenticated = true) :
    resetUSER c = c := by
  simp [resetUSER, h]

theorem requireAuth_of_true (c : CmdCtx) (h : c.st.id.authenticated = true) :
    requireAuth c = c := by
  simp [requireAuth, h]

theorem requireAuth_of_false (c : CmdCtx) (hpe : c.pe = true)
    (h : c.st.id.authenticated = false) :
    requireAuth c =
      { c with replies := c.replies ++ ["530 Please login with USER and PASS."], pe := false } := by
  simp [requireAuth, hpe, h]

@[simp]
theorem requireAuth_st (c : CmdCtx) : (requireAuth c).st = c.st := by
  unfold requireAuth
  split
  · rfl
  · split <;> rfl

@[simp]
theorem requireAuth_tokens (c : CmdCtx) : (requireAuth c).tokens = c.tokens := by
  unfold requireAuth
  split
  · rfl
  · split <;> rfl

@[simp]
theorem requirePASV_st (c : CmdCtx) : (requirePASV c).st = c.st := by
  unfold requirePASV
  split
  · rfl
  · split <;> rfl

@[simp]
theorem requirePASV_tokens (c : CmdCtx) : (requirePASV c).tokens = c.tokens := by
  unfold requirePASV
  split
  · rfl
  · split <;> rfl

@[simp]
theorem requirePASV_pe_of_false (c : CmdCtx) (h : c.pe = false) : requirePASV c = c := by
  simp [requirePASV, h]

theorem requirePASV_of_open (c : CmdCtx) (dc : DataChannel)
    (hdc : c.st.lastDataChanneler = some dc) (hopen : dc.isClosed = false) :
    requirePASV c = c := by
  unfold requirePASV
  split
  · rfl
  · rw [hdc]
    simp [hopen]

/-! ## Identity preservation of the handlers -/

theorem processSYST_id (st : SessionState) (tokens : List String) (w : World) :
    (processSYST st tokens w).st.id = st.id := rfl

theorem processQUIT_id (st : SessionState) (tokens : List String) (w : World) :
    (processQUIT st tokens w).st.id = st.id := rfl

theorem processNOOP_id (st : SessionState) (tokens : List String) (w : World) :
    (processNOOP st tokens w).st.id = st.id := rfl

theorem processFEAT_id (st : SessionState) (tokens : List String) (w : World) :
    (processFEAT st tokens w).st.id = st.id := rfl

theorem processPWD_id (st : SessionState) (tokens : List String) (w : World) :
    (processPWD st tokens w).st.id = st.id := rfl

theorem processCWD_id (st : SessionState) (tokens : List String) (w : World) :
    (processCWD st tokens w).st.id = st.id := by
  unfold processCWD
  try dsimp only
  split
  · rfl
  · split <;> rfl

theorem processCDUP_id (st : SessionState) (tokens : List String) (w : World) :
    (processCDUP st tokens w).st.id = st.id := by
  unfold processCDUP
  exact processCWD_id st _ w

theorem processRETR_id (st : SessionState) (tokens : List String) (w : World) :
    (processRETR st tokens w).st.id = st.id := by
  unfold processRETR
  try dsimp only
  split
  · rfl
  · split <;> rfl

theorem processSTOR_id (st : SessionState) (tokens : List String) (w : World) :
    (processSTOR st tokens w).st.id = st.id := by
  unfold processSTOR
  try dsimp only
  split
  · rfl
  · split <;> rfl

theorem processLIST_id (st : SessionState) (tokens : List String) (w : World) :
    (processLIST st tokens w).st.id = st.id := by
  unfold processLIST
  try dsimp only
  split
  · rfl
  · split
    · rfl
    · split <;> rfl

theorem processNLST_id (st : SessionState) (tokens : List String) (w : World) :
    (processNLST st tokens w).st.id = st.id := by
  unfold processNLST
  try dsimp only
  split
  · rfl
  · split
    · rfl
    · split <;> rfl

theorem processPASV_id (st : SessionState) (tokens : List String) (w : World) :
    (processPASV st tokens w).st.id = st.id := by
  unfold processPASV
  try dsimp only
  split
  · rfl
  · split
    · rfl
    · split
      · rfl
      · split <;> rfl

theorem processEPSV_id (st : SessionState) (tokens : List String) (w : World) :
    (processEPSV st tokens w).st.id = st.id := by
  unfold processEPSV
  try dsimp only
  split
  · rfl
  · split
    · rfl
    · split <;> rfl

theorem processTYPE_id (st : SessionState) (tokens : List String) (w : World) :
    (processTYPE st tokens w).st.id = st.id := by
  unfold processTYPE
  try dsimp only
  split
  · rfl
  · split <;> rfl

theorem processSIZE_id (st : SessionState) (tokens : List String) (w : World) :
    (processSIZE st tokens w).st.id = st.id := by
  unfold processSIZE
  try dsimp only
  split
  · rfl
  · split <;> rfl

theorem processMKD_id (st : SessionState) (tokens : List String) (w : World) :
    (processMKD st tokens w).st.id = st.id := by
  unfold processMKD
  try dsimp only
  split
  · rfl
  · split
    · rfl
    · split <;> rfl

theorem processRMD_id (st : SessionState) (tokens : List String) (w : World) :
    (processRMD st tokens w).st.id = st.id := by
  unfold processRMD
  try dsimp only
  split
  · rfl
  · split <;> rfl

theorem processDELE_id (st : SessionState) (tokens : List String) (w : World) :
    (processDELE st tokens w).st.id = st.id := by
  unfold processDELE
  try dsimp only
  split
  · rfl
  · split
    · rfl
    · split <;> rfl

theorem processREST_id (st : SessionState) (tokens : List String) (w : World) :
    (processREST st tokens w).st.id = st.id := by
  unfold processREST
  try dsimp only
  split
  · rfl
  · split <;> rfl

theorem processAUTH_id (st : SessionState) (tokens : List String) (w : World) :
    (processAUTH st tokens w).st.id = st.id := by
  unfold processAUTH
  try dsimp only
  split
  · rfl
  · split
    · rfl
    · split
      · rfl
      · split <;> rfl

theorem processPROT_id (st : SessionState) (tokens : List String) (w : World) :
    (processPROT st tokens w).st.id = st.id := by
  unfold processPROT
  try dsimp only
  split
  · rfl
  · split
    · rfl
    · split
      · rfl
      · split <;> rfl

theorem processUSER_auth (st : SessionState) (tokens : List String) (w : World) :
    (processUSER st tokens w).st.id.authenticated = st.id.authenticated := by
  unfold processUSER
  try dsimp only
  split <;> rfl

/-! ## Claim C7 -/

/-- Claim C7: `clean` maps each of the six table inputs of the specification
to exactly the stated output. -/
theorem clearPath_table :
    clearPath "/root/test/third" = some "/root/test/third" ∧
    clearPath "/root/test/third/.." = some "/root/test" ∧
    clearPath "/root/../third" = some "/third" ∧
    clearPath "/root/test/../third/forth/.." = some "/root/third" ∧
    clearPath "root/test/../third/forth/.." = some "root/third" ∧
    clearPath "root/test/third" = some "root/test/third" := by
  decide

/-! ## Claim C1 -/

/-- Claim C1, counterexample: the claim exempts FEAT from the
authentication gate, but session.go dispatches FEAT through `requireAuth`:
an unauthenticated FEAT is answered `530` and its handler is skipped. -/
theorem feat_gated_counterexample :
    (handleTokens sampleUnauthState sampleWorld ["FEAT"]).replies
        = ["530 Please login with USER and PASS."] ∧
    (handleTokens sampleUnauthState sampleWorld ["FEAT"]).ranHandler = false :=
  ⟨rfl, rfl⟩

/-- Claim C1 (amended): for every dispatch-table command other than USER,
PASS, QUIT, NOOP, SYST, AUTH — that is, including FEAT — an unauthenticated
session replies exactly `530 Please login with USER and PASS.` and the
handler is skipped; for USER, PASS, QUIT, NOOP, SYST, AUTH the handler runs
regardless of the authenticated flag. -/
theorem dispatch_auth_gating (st : SessionState) (w : World) (tokens : List String)
    (t : String) (hhead : tokens.head? = some t) :
    (t ∈ gatedCommands → st.id.authenticated = false →
      (handleTokens st w tokens).replies = ["530 Please login with USER and PASS."] ∧
      (handleTokens st w tokens).ranHandler = false) ∧
    (t ∈ openCommands → (handleTokens st w tokens).ranHandler = true) := by
  cases tokens with
  | nil => simp at hhead
  | cons t0 ts =>
    simp only [List.head?_cons, Option.some.injEq] at hhead
    subst hhead
    constructor
    · intro hmem hauth
      fin_cases hmem <;>
        simp [handleTokens, Execute, requireAuth, requirePASV, resetUSER, resetREST,
          newCmdList, hauth]
    · intro hmem
      fin_cases hmem <;>
        simp [handleTokens, Execute]

/-- Witness for the amended C1: an unauthenticated PWD is gated, an
unauthenticated NOOP still runs its handler. -/
theorem dispatch_auth_gating_witness :
    ((handleTokens sampleUnauthState sampleWorld ["PWD"]).replies
        = ["530 Please login with USER and PASS."] ∧
      (handleTokens sampleUnauthState sampleWorld ["PWD"]).ranHandler = false) ∧
    (handleTokens sampleUnauthState sampleWorld ["NOOP"]).ranHandler = true :=
  ⟨(dispatch_auth_gating sampleUnauthState sampleWorld ["PWD"] "PWD" rfl).1
      (by decide) rfl,
   (dispatch_auth_gating sampleUnauthState sampleWorld ["NOOP"] "NOOP" rfl).2 (by decide)⟩

/-! ## Claim C9 -/

/-- Claim C9: a PASS command whose argument makes the authenticator return
false is answered exactly `530 Password Rejected` and leaves the identity at
(empty username, not authenticated), whatever a prior USER stored. -/
theorem processPASS_reject_clears_identity (st : SessionState) (w : World)
    (pw : String) (rest : List String)
    (hauth : w.auth st.id.username pw = false) :
    (handleTokens st w ("PASS" :: pw :: rest)).st.id = ⟨"", false⟩ ∧
    (handleTokens st w ("PASS" :: pw :: rest)).replies = ["530 Password Rejected"] := by
  have hlen : ¬(rest.length + 1 + 1 < 2) := by omega
  simp [handleTokens, Execute, resetREST, newCmdList, processPASS, hlen, hauth]

/-- Witness for C9 at the authenticated sample session (username `alice`)
with the always-false authenticator. -/
theorem processPASS_reject_clears_identity_witness :
    sampleWorld.auth sampleAuthState.id.username "pw" = false ∧
    (handleTokens sampleAuthState sampleWorld ["PASS", "pw"]).st.id = ⟨"", false⟩ ∧
    (handleTokens sampleAuthState sampleWorld ["PASS", "pw"]).replies
        = ["530 Password Rejected"] :=
  ⟨rfl,
   (processPASS_reject_clears_identity sampleAuthState sampleWorld "pw" [] rfl).1,
   (processPASS_reject_clears_identity sampleAuthState sampleWorld "pw" [] rfl).2⟩

/-! ## Claim C10 -/

theorem Execute_st_auth (c : CmdCtx) (pe : SessionState → List String → World → HRes)
    (w : World)
    (hpe : ∀ s tk, (pe s tk w).st.id.authenticated = s.id.authenticated) :
    (Execute c pe w).st.id.authenticated = c.st.id.authenticated := by
  unfold Execute
  split
  · exact hpe c.st c.tokens
  · rfl

/-- Claim C10: once authenticated, only a PASS whose authenticator call
returns false resets the flag; a USER issued while authenticated replaces
the username and leaves the session authenticated. -/
theorem authenticated_persists (st : SessionState) (w : World) (tokens : List String)
    (hauth : st.id.authenticated = true) :
    ((handleTokens st w tokens).st.id.authenticated = true ∨
      ∃ pw rest, tokens = "PASS" :: pw :: rest ∧
        w.auth st.id.username pw = false ∧
        (handleTokens st w tokens).st.id = ⟨"", false⟩) ∧
    (∀ name rest, tokens = "USER" :: name :: rest →
      (handleTokens st w tokens).st.id = ⟨name, true⟩) := by
  constructor
  · cases tokens with
    | nil =>
      left
      simpa [handleTokens] using hauth
    | cons t ts =>
      by_cases ht : t = "PASS"
      · subst ht
        cases ts with
        | nil =>
          left
          simp [handleTokens, Execute, resetREST, newCmdList, processPASS, hauth]
        | cons pw rest =>
          have hlen : ¬(rest.length + 1 + 1 < 2) := by omega
          by_cases hw : w.auth st.id.username pw
          · left
            simp [handleTokens, Execute, resetREST, newCmdList, processPASS, hlen, hw]
          · right
            have hw2 : w.auth st.id.username pw = false := by simpa using hw
            refine ⟨pw, rest, rfl, hw2, ?_⟩
            simp [handleTokens, Execute, resetREST, newCmdList, processPASS, hlen, hw2]
      · left
        by_cases hmem : t ∈ dispatchCommands
        · fin_cases hmem
          · exact (Execute_st_auth (resetREST (newCmdList st ("USER" :: ts))) _ w (fun s tk => processUSER_auth s tk w)).trans (by simp [hauth])
          · exact absurd rfl ht
          · exact (Execute_st_auth (resetREST (resetUSER (requireAuth (newCmdList st ("PWD" :: ts))))) _ w (fun s tk => by rw [processPWD_id])).trans (by simp [hauth])
          · exact (Execute_st_auth (resetREST (resetUSER (requireAuth (newCmdList st ("TYPE" :: ts))))) _ w (fun s tk => by rw [processTYPE_id])).trans (by simp [hauth])
          · exact (Execute_st_auth (resetREST (resetUSER (requireAuth (newCmdList st ("PASV" :: ts))))) _ w (fun s tk => by rw [processPASV_id])).trans (by simp [hauth])
          · exact (Execute_st_auth (resetREST (resetUSER (requireAuth (newCmdList st ("EPSV" :: ts))))) _ w (fun s tk => by rw [processEPSV_id])).trans (by simp [hauth])
          · exact (Execute_st_auth (resetREST (resetUSER (requirePASV (requireAuth (newCmdList st ("LIST" :: ts)))))) _ w (fun s tk => by rw [processLIST_id])).trans (by simp [hauth])
          · exact (Execute_st_auth (resetREST (resetUSER (newCmdList st ("SYST" :: ts)))) _ w (fun s tk => by rw [processSYST_id])).trans (by simp [hauth])
          · exact (Execute_st_auth (resetREST (resetUSER (requireAuth (newCmdList st ("CWD" :: ts))))) _ w (fun s tk => by rw [processCWD_id])).trans (by simp [hauth])
          · exact (Execute_st_auth (resetREST (resetUSER (requireAuth (newCmdList st ("CDUP" :: ts))))) _ w (fun s tk => by rw [processCDUP_id])).trans (by simp [hauth])
          · exact (Execute_st_auth (resetREST (resetUSER (requireAuth (newCmdList st ("SIZE" :: ts))))) _ w (fun s tk => by rw [processSIZE_id])).trans (by simp [hauth])
          · exact (Execute_st_auth (requirePASV (resetUSER (requireAuth (newCmdList st ("RETR" :: ts))))) _ w (fun s tk => by rw [processRETR_id])).trans (by simp [hauth])
          · exact (Execute_st_auth (requirePASV (resetREST (resetUSER (requireAuth (newCmdList st ("STOR" :: ts)))))) _ w (fun s tk => by rw [processSTOR_id])).trans (by simp [hauth])
          · exact (Execute_st_auth (resetREST (resetUSER (requireAuth (newCmdList st ("FEAT" :: ts))))) _ w (fun s tk => by rw [processFEAT_id])).trans (by simp [hauth])
          · exact (Execute_st_auth (resetREST (resetUSER (newCmdList st ("QUIT" :: ts)))) _ w (fun s tk => by rw [processQUIT_id])).trans (by simp [hauth])
          · exact (Execute_st_auth (resetREST (resetUSER (newCmdList st ("NOOP" :: ts)))) _ w (fun s tk => by rw [processNOOP_id])).trans (by simp [hauth])
          · exact (Execute_st_auth (resetREST (resetUSER (requireAuth (newCmdList st ("MKD" :: ts))))) _ w (fun s tk => by rw [processMKD_id])).trans (by simp [hauth])
          · exact (Execute_st_auth (resetREST (resetUSER (requireAuth (newCmdList st ("RMD" :: ts))))) _ w (fun s tk => by rw [processRMD_id])).trans (by simp [hauth])
          · exact (Execute_st_auth (resetREST (resetUSER (requireAuth (newCmdList st ("DELE" :: ts))))) _ w (fun s tk => by rw [processDELE_id])).trans (by simp [hauth])
          · exact (Execute_st_auth (resetREST (resetUSER (requirePASV (requireAuth (newCmdList st ("REST" :: ts)))))) _ w (fun s tk => by rw [processREST_id])).trans (by simp [hauth])
          · exact (Execute_st_auth (resetREST (resetUSER (requirePASV (requireAuth (newCmdList st ("NLST" :: ts)))))) _ w (fun s tk => by rw [processNLST_id])).trans (by simp [hauth])
          · exact (Execute_st_auth (resetREST (resetUSER (newCmdList st ("AUTH" :: ts)))) _ w (fun s tk => by rw [processAUTH_id])).trans (by simp [hauth])
          · exact (Execute_st_auth (resetREST (resetUSER (requireAuth (newCmdList st ("PROT" :: ts))))) _ w (fun s tk => by rw [processPROT_id])).trans (by simp [hauth])
        · -- unknown token: `502 not implemented`, state unchanged
          have hn1 : ¬(t = "USER") := fun e => hmem (by rw [e]; decide)
          have hn2 : ¬(t = "PASS") := fun e => hmem (by rw [e]; decide)
          have hn3 : ¬(t = "PWD") := fun e => hmem (by rw [e]; decide)
          have hn4 : ¬(t = "TYPE") := fun e => hmem (by rw [e]; decide)
          have hn5 : ¬(t = "PASV") := fun e => hmem (by rw [e]; decide)
          have hn6 : ¬(t = "EPSV") := fun e => hmem (by rw [e]; decide)
          have hn7 : ¬(t = "LIST") := fun e => hmem (by rw [e]; decide)
          have hn8 : ¬(t = "SYST") := fun e => hmem (by rw [e]; decide)
          have hn9 : ¬(t = "CWD") := fun e => hmem (by rw [e]; decide)
          have hn10 : ¬(t = "CDUP") := fun e => hmem (by rw [e]; decide)
          have hn11 : ¬(t = "SIZE") := fun e => hmem (by rw [e]; decide)
          have hn12 : ¬(t = "RETR") := fun e => hmem (by rw [e]; decide)
          have hn13 : ¬(t = "STOR") := fun e => hmem (by rw [e]; decide)
          have hn14 : ¬(t = "FEAT") := fun e => hmem (by rw [e]; decide)
          have hn15 : ¬(t = "QUIT") := fun e => hmem (by rw [e]; decide)
          have hn16 : ¬(t = "NOOP") := fun e => hmem (by rw [e]; decide)
          have hn17 : ¬(t = "MKD") := fun e => hmem (by rw [e]; decide)
          have hn18 : ¬(t = "RMD") := fun e => hmem (by rw [e]; decide)
          have hn19 : ¬(t = "DELE") := fun e => hmem (by rw [e]; decide)
          have hn20 : ¬(t = "REST") := fun e => hmem (by rw [e]; decide)
          have hn21 : ¬(t = "NLST") := fun e => hmem (by rw [e]; decide)
          have hn22 : ¬(t = "AUTH") := fun e => hmem (by rw [e]; decide)
          have hn23 : ¬(t = "PROT") := fun e => hmem (by rw [e]; decide)
          simp only [handleTokens, List.head?_cons]
          simp only [hn1, hn2, hn3, hn4, hn5, hn6, hn7, hn8, hn9, hn10, hn11, hn12, hn13, hn14, hn15, hn16, hn17, hn18, hn19, hn20, hn21, hn22, hn23, if_false, ite_false]
          exact hauth
  · intro name rest heq
    subst heq
    have hlen : ¬(rest.length + 1 + 1 < 2) := by omega
    simp [handleTokens, Execute, resetREST, newCmdList, processUSER, hlen, hauth]

/-- Witness for C10: the authenticated sample session stays authenticated
when USER replaces the username. -/
theorem authenticated_persists_witness :
    sampleAuthState.id.authenticated = true ∧
    (handleTokens sampleAuthState sampleWorld ["USER", "bob"]).st.id = ⟨"bob", true⟩ :=
  ⟨rfl,
   (authenticated_persists sampleAuthState sampleWorld ["USER", "bob"] rfl).2 "bob" [] rfl⟩

/-! ## Claim C8 -/

/-- Claim C8, counterexample: an authenticated LIST with a path argument
whose directory change succeeds but whose List() call fails returns with the
file provider still in the changed directory (`/x`), not the prior one
(`/`): the restore in commands.go lines 256-261 is only reached when List()
succeeded. -/
theorem processLIST_dir_not_restored :
    (handleTokens sampleAuthState sampleWorld ["LIST", "/x"]).st.fp.curDir = "/x" ∧
    sampleAuthState.fp.curDir = "/" :=
  ⟨rfl, rfl⟩

/-- Claim C8 (amended): for a LIST with a path argument, (i) if the
directory change fails, the directory is unchanged; (ii) if the change
succeeds but List() fails, the handler returns with the directory still
changed — the temporary change is NOT undone; (iii) only when List()
succeeds does the handler change back to the saved directory, the provider
then reporting whatever the backend answers for that saved path. -/
theorem processLIST_directory_amended (st : SessionState) (w : World)
    (p : String) (rest : List String) :
    (∀ e, st.fp.cdOracle st.fp.curDir p = .error e →
      (processLIST st ("LIST" :: p :: rest) w).st.fp.curDir = st.fp.curDir) ∧
    (∀ d e, st.fp.cdOracle st.fp.curDir p = .ok d →
      st.fp.listOracle d = .error e →
      (processLIST st ("LIST" :: p :: rest) w).st.fp.curDir = d ∧
      (processLIST st ("LIST" :: p :: rest) w).out
          = [s!"451 cannot retrieve directory list: {e}"]) ∧
    (∀ d files d2, st.fp.cdOracle st.fp.curDir p = .ok d →
      st.fp.listOracle d = .ok files →
      st.fp.cdOracle d st.fp.curDir = .ok d2 →
      (processLIST st ("LIST" :: p :: rest) w).st.fp.curDir = d2) := by
  have hgt : 1 < ("LIST" :: p :: rest).length := by
    simp only [List.length_cons]
    omega
  refine ⟨?_, ?_, ?_⟩
  · intro e hcd
    simp [processLIST, FileProvider.changeDirectory, Except.map, hgt, hcd]
  · intro d e hcd hlist
    simp [processLIST, FileProvider.changeDirectory, Except.map, hgt, hcd, hlist]
  · intro d files d2 hcd hlist hcd2
    simp [processLIST, FileProvider.changeDirectory, Except.map, hgt, hcd, hlist, hcd2]

/-- Witness for the amended C8: over the backend whose List() succeeds, the
handler restores the saved directory `/`. -/
theorem processLIST_directory_amended_witness :
    sampleAuthStateList.fp.cdOracle sampleAuthStateList.fp.curDir "/x" = .ok "/x" ∧
    sampleAuthStateList.fp.listOracle "/x" = .ok [] ∧
    sampleAuthStateList.fp.cdOracle "/x" sampleAuthStateList.fp.curDir = .ok "/" ∧
    (processLIST sampleAuthStateList ["LIST", "/x"] sampleWorld).st.fp.curDir = "/" :=
  ⟨rfl, rfl, rfl,
   (processLIST_directory_amended sampleAuthStateList sampleWorld "/x" []).2.2
     "/x" [] "/" rfl rfl rfl⟩

/-! ## Claim C2 -/

/-- Claim C2 (code bug): processREST calls `fmt.Sscanf("%d", tokens[1], ...)`
with the source string and the format inverted, so a decimal argument such as
`5` is used as the format and never parses: the session replies
`550 syntax error (input does not match format)` and the pending offset,
reset to 0 by the pipeline, is never set to 5 (the prior offset 7 is also
gone).  The spec's REST contract (store n, reply `350 ...`) is unreachable
for decimal arguments. -/
theorem processREST_inverted_sscanf :
    sampleAuthState.lastREST = 7 ∧
    (handleTokens sampleAuthState sampleWorld ["REST", "5"]).replies
        = ["550 syntax error (input does not match format)"] ∧
    (handleTokens sampleAuthState sampleWorld ["REST", "5"]).st.lastREST = 0 ∧
    (handleTokens sampleAuthState sampleWorld ["REST", "5"]).ranHandler = true :=
  ⟨rfl, rfl, rfl, rfl⟩

/-! ## Claims C3 and C4 -/

/-- Claim C3 (code bug): `dataChannel.Close` releases the port to the pool
but never resets `dc.port` to 0, so after close() the port field still holds
5000 and `IsClosed()` reports false — the channel never reaches the
spec's terminal Closed state. -/
theorem dataChannel_close_not_terminal :
    dataChannelNew (paNew 5000 5002) (fun _ => true) false
        = some (sampleDCNew, samplePA1) ∧
    (sampleDCNew.close samplePA1).1.port = 5000 ∧
    (sampleDCNew.close samplePA1).1.isClosed = false ∧
    (sampleDCNew.close samplePA1).2.cAssigned = [false, false] := by
  refine ⟨by decide, rfl, rfl, rfl⟩

/-- Claim C4 (code bug): because close() leaves `port` non-zero, a second
close() runs `ReleasePort` again: the pool's free counter climbs from 2 to 3
(above the pool's capacity of 2) and the pool state after the second close
differs from the state after the first — the port is not released exactly
once. -/
theorem dataChannel_close_not_idempotent :
    (sampleDCNew.close samplePA1).2.free = 2 ∧
    ((sampleDCNew.close samplePA1).1.close (sampleDCNew.close samplePA1).2).2.free = 3 ∧
    ((sampleDCNew.close samplePA1).1.close (sampleDCNew.close samplePA1).2).2
        ≠ (sampleDCNew.close samplePA1).2 :=
  ⟨rfl, rfl, by decide⟩

end FTP2
